import Mathlib

/-!
Shallow embedding of `include/taser/trajectories/uniform_r3_spline_trajectory.h`
from the kontiki repository: a uniform cubic B-spline trajectory in R^3.

The scalar template parameter `T` of the C++ code is modelled as `ℚ` (exact
arithmetic).  Collaborators that live outside this header (the spline view base
class providing `CalculateIndexAndInterpolationAmount`, `t0`, `dt` and
`NumKnots`; the basis matrix `M`; the evaluation flag constants of
`trajectory.h`; the `VectorHolder` parameter storage) are modelled from the
spec where noted.
-/

namespace Kontiki

/-- A 3-vector (Eigen `Matrix T 3 1`): a control point or a result field. -/
abbrev Vec3 := Fin 3 → ℚ

/-- A 4-vector (Eigen `Matrix T 4 1`): monomial rows and blend-weight rows. -/
abbrev Vec4 := Fin 4 → ℚ

/-- A 4 x 4 matrix of scalars, row index first: the shape of the basis matrix. -/
abbrev Mat4 := Fin 4 → Fin 4 → ℚ

/-- The zero 3-vector (`setZero`). -/
def zeroVec3 : Vec3 := fun _ => 0

/-- Builds a 4-vector from its entries (the Eigen `Vector4(a, b, c, d)` call). -/
def vec4 (a b c d : ℚ) : Vec4 := ![a, b, c, d]

/-- Row vector times matrix (`U.transpose() * M` in the source): entry `j` of
the result is the dot product of `U` with column `j` of `M`. -/
def vecTransposeMul (U : Vec4) (M : Mat4) : Vec4 :=
  fun j => U 0 * M 0 j + U 1 * M 1 j + U 2 * M 2 j + U 3 * M 3 j

/-- Scalar times 4-vector (`dt_inv * Vector4(...)` in the source). -/
def smul4 (c : ℚ) (U : Vec4) : Vec4 := fun k => c * U k

/-- Modelled from the spec: `flags` is a bitmask selecting which of position,
velocity, acceleration, orientation and angular velocity the caller needs.  The
flag constants live in `trajectory.h`, which is not among the sources; they are
modelled as five distinct bits. -/
def EvalPosition : ℕ := 1

/-- Modelled from the spec: the velocity bit of the evaluation flag bitmask. -/
def EvalVelocity : ℕ := 2

/-- Modelled from the spec: the acceleration bit of the evaluation flags. -/
def EvalAcceleration : ℕ := 4

/-- Modelled from the spec: the orientation bit of the evaluation flags. -/
def EvalOrientation : ℕ := 8

/-- Modelled from the spec: the angular-velocity bit of the evaluation flags. -/
def EvalAngularVelocity : ℕ := 16

/-- The bit test `flags & flag` that the source uses as a truth value. -/
def testFlag (flags flag : ℕ) : Bool := flags &&& flag != 0

/-- The evaluation record `TrajectoryEvaluation<T>` (declared in `trajectory.h`,
modelled from the spec): position, velocity, acceleration, orientation (a
quaternion, modelled by its four coefficients) and angular velocity.
`Evaluate` default-constructs one and writes only the fields selected by the
flags, so the record a caller receives starts from an arbitrary default. -/
structure TrajectoryEvaluation where
  position : Vec3
  velocity : Vec3
  acceleration : Vec3
  orientation : Fin 4 → ℚ
  angular_velocity : Vec3
deriving DecidableEq

/-- The identity quaternion written by `setIdentity`: w = 1, x = y = z = 0. -/
def quaternionIdentity : Fin 4 → ℚ := ![1, 0, 0, 0]

/-- The spline metadata `SplineMeta` (modelled from the spec): time `t0` of the
first knot, uniform knot spacing `dt`, and knot count `n`.  The count is
modelled as an integer because `AddToProblem` stores the signed expression
`i2 + 4 - i1 + 1` into the field of its output metadata. -/
structure SplineMeta where
  t0 : ℚ
  dt : ℚ
  n : ℤ
deriving DecidableEq

/-- The errors the header throws: `std::range_error` carrying the offending
time, resolved segment index and knot count, and `std::length_error` for the
multi-interval case of `AddToProblem`. -/
inductive SplineError where
  | rangeError (t : ℚ) (i0 : ℤ) (N : ℤ)
  | lengthError
deriving DecidableEq

/-- The trajectory state: its metadata plus the parameter storage
(`VectorHolder`, modelled from the spec): a growable collection of 3-vector
buffers addressed by index, with `Parameter(i)` a reference to buffer `i`. -/
structure UniformR3SplineTrajectory where
  meta : SplineMeta
  holder : List Vec3
deriving DecidableEq

/-- Modelled from the spec: `CalculateIndexAndInterpolationAmount` of the
spline view base class (`spline_base.h`, not among the sources):
`i0 = ⌊(t - t0)/dt⌋` and `u = (t - t0)/dt - i0`. -/
def calculateIndexAndInterpolationAmount (t0 dt t : ℚ) : ℤ × ℚ :=
  let s := (t - t0) / dt
  (⌊s⌋, s - (⌊s⌋ : ℚ))

/-- `ControlPoint(i)` and `MutableControlPoint(i)`: the 3-vector view onto
`Parameter(i)` of the holder.  Bounds are the holder contract (undefined
behavior in the original on an out-of-range index); the model returns the zero
vector there, a value no in-range read ever depends on. -/
def controlPoint (traj : UniformR3SplineTrajectory) (i : ℤ) : Vec3 :=
  traj.holder.getD i.toNat zeroVec3

/-- The accumulation loop of `Evaluate`, unrolled (the trip count is fixed):
`for (i = i0; i < i0 + 4; ++i) acc += B(i - i0) * ControlPoint(i)` starting
from a zero accumulator (`setZero`). -/
def blendLoop (B : Vec4) (traj : UniformR3SplineTrajectory) (i0 : ℤ) : Vec3 :=
  let acc0 : Vec3 := zeroVec3
  let acc1 : Vec3 := fun j => acc0 j + B 0 * controlPoint traj i0 j
  let acc2 : Vec3 := fun j => acc1 j + B 1 * controlPoint traj (i0 + 1) j
  let acc3 : Vec3 := fun j => acc2 j + B 2 * controlPoint traj (i0 + 2) j
  fun j => acc3 j + B 3 * controlPoint traj (i0 + 3) j

/-- The work `Evaluate` performs after its range check: each flag-guarded block
builds the monomial or derivative row, multiplies it by the basis matrix `M`
and blends the four active control points; fields of unselected flags keep the
values of the default-constructed result `init`.  (The source assigns `u2` and
`u3` only under the flags that read them; assigning them unconditionally is
observationally identical because every read sees `u ^ 2` resp. `u ^ 3`.)
The source loop interleaves the three accumulations over the same four control
points; they touch disjoint fields, so they are modelled as one `blendLoop`
per field. -/
def evaluateFields (M : Mat4) (init : TrajectoryEvaluation)
    (traj : UniformR3SplineTrajectory) (t : ℚ) (flags : ℕ) : TrajectoryEvaluation :=
  let iu := calculateIndexAndInterpolationAmount traj.meta.t0 traj.meta.dt t
  let i0 := iu.1
  let u := iu.2
  let u2 := u ^ 2
  let u3 := u ^ 3
  let dt_inv := 1 / traj.meta.dt
  let r1 := if testFlag flags EvalPosition then
      { init with position := blendLoop (vecTransposeMul (vec4 1 u u2 u3) M) traj i0 }
    else init
  let r2 := if testFlag flags EvalVelocity then
      { r1 with velocity :=
          blendLoop (vecTransposeMul (smul4 dt_inv (vec4 0 1 (2 * u) (3 * u2))) M) traj i0 }
    else r1
  let r3 := if testFlag flags EvalAcceleration then
      { r2 with acceleration :=
          blendLoop (vecTransposeMul (smul4 (dt_inv ^ 2) (vec4 0 0 2 (6 * u))) M) traj i0 }
    else r2
  let r4 := if testFlag flags EvalOrientation then
      { r3 with orientation := quaternionIdentity }
    else r3
  if testFlag flags EvalAngularVelocity then
    { r4 with angular_velocity := zeroVec3 }
  else r4

/-- `UniformR3SplineView::Evaluate`: resolve `(i0, u)` from `t`, throw
`std::range_error` when `N < 4` or `i0 < 0` or `i0 > N - 4`, and otherwise
compute the requested fields.  The source compares `int` against `size_t`, but
the `||` chain short-circuits: the third comparison runs only when `N >= 4`
and `i0 >= 0`, where the unsigned comparison agrees with the signed model. -/
def evaluate (M : Mat4) (init : TrajectoryEvaluation)
    (traj : UniformR3SplineTrajectory) (t : ℚ) (flags : ℕ) :
    Except SplineError TrajectoryEvaluation :=
  let i0 := (calculateIndexAndInterpolationAmount traj.meta.t0 traj.meta.dt t).1
  let N := traj.meta.n
  if N < 4 ∨ i0 < 0 ∨ i0 > N - 4 then
    Except.error (SplineError.rangeError t i0 N)
  else
    Except.ok (evaluateFields M init traj t flags)

/-- `VectorHolder::AddParameter(size)` for size 3 (modelled from the spec):
appends one new zero-initialized buffer to the storage and returns its index. -/
def addParameter (holder : List Vec3) : List Vec3 × ℕ :=
  (holder ++ [zeroVec3], holder.length)

/-- `UniformR3SplineTrajectory::AppendKnot(cp)`: ask the holder for a new
3-parameter buffer, write `cp` through `MutableControlPoint` at the returned
index, and increment `meta_.n`. -/
def appendKnot (traj : UniformR3SplineTrajectory) (cp : Vec3) :
    UniformR3SplineTrajectory :=
  let hi := addParameter traj.holder
  let holder2 := hi.1.set hi.2 cp
  { meta := { traj.meta with n := traj.meta.n + 1 }, holder := holder2 }

/-- The per-call outputs of `AddToProblem`: the metadata written into `meta`,
and the parameter blocks handed to the problem (a block reference is modelled
by its holder index) together with their sizes. -/
structure ProblemOutput where
  meta : SplineMeta
  parameter_blocks : List ℤ
  parameter_sizes : List ℕ
deriving DecidableEq

/-- The work `AddToProblem` performs on its single interval `(t1, t2)` after
the length guard: resolve `i1` and `i2` from the endpoints, push `Parameter(i)`
with size 3 for every `i` of the loop `for (i = i1; i < i2 + 4; ++i)` (the loop
body runs `max (i2 + 4 - i1) 0` times), and write
`meta = (dt, i2 + 4 - i1 + 1, t0 + i1 * dt)`.  No bound on `i1` or `i2` is
checked anywhere. -/
def registerOutput (traj : UniformR3SplineTrajectory) (t1 t2 : ℚ) : ProblemOutput :=
  let i1 := (calculateIndexAndInterpolationAmount traj.meta.t0 traj.meta.dt t1).1
  let i2 := (calculateIndexAndInterpolationAmount traj.meta.t0 traj.meta.dt t2).1
  let blocks := (List.range (i2 + 4 - i1).toNat).map (fun k : ℕ => i1 + (k : ℤ))
  { meta :=
      { dt := traj.meta.dt
        n := i2 + 4 - i1 + 1
        t0 := traj.meta.t0 + i1 * traj.meta.dt }
    parameter_blocks := blocks
    parameter_sizes := blocks.map (fun _ => 3) }

/-- `UniformR3SplineTrajectory::AddToProblem`: throws `std::length_error`
unless exactly one time interval is supplied (before producing any output);
otherwise registers the window of that interval. -/
def addToProblem (traj : UniformR3SplineTrajectory) (times : List (ℚ × ℚ)) :
    Except SplineError ProblemOutput :=
  match times with
  | [tt] => Except.ok (registerOutput traj tt.1 tt.2)
  | _ => Except.error SplineError.lengthError

/-- Spec side, for the refinement claims: the position monomial row
`[1, u, u^2, u^3]` in the words of the spec. -/
def specPositionRow (u : ℚ) : Vec4 := vec4 1 u (u ^ 2) (u ^ 3)

/-- Spec side: the velocity row `(1/dt) * [0, 1, 2u, 3u^2]`. -/
def specVelocityRow (dt u : ℚ) : Vec4 := smul4 (1 / dt) (vec4 0 1 (2 * u) (3 * u ^ 2))

/-- Spec side: the acceleration row `(1/dt)^2 * [0, 0, 2, 6u]`. -/
def specAccelerationRow (dt u : ℚ) : Vec4 := smul4 ((1 / dt) ^ 2) (vec4 0 0 2 (6 * u))

/-- Spec side: a row vector left-multiplied by the basis matrix, written as the
sum the spec describes. -/
def specRowTimesM (U : Vec4) (M : Mat4) : Vec4 :=
  fun j => ∑ m : Fin 4, U m * M m j

/-- Spec side: the weight-sum over the four active control points, starting
from a zero accumulator. -/
def specWeightSum (B : Vec4) (traj : UniformR3SplineTrajectory) (i0 : ℤ) : Vec3 :=
  fun j => 0 + B 0 * controlPoint traj i0 j + B 1 * controlPoint traj (i0 + 1) j
    + B 2 * controlPoint traj (i0 + 2) j + B 3 * controlPoint traj (i0 + 3) j

/-- The position the evaluator formulas produce as a function of time with the
segment index frozen at `i0`: the function whose exact time derivatives the
derivative claims are about. -/
def positionAt (M : Mat4) (traj : UniformR3SplineTrajectory) (i0 : ℤ) (s : ℚ) : Vec3 :=
  let u := (s - traj.meta.t0) / traj.meta.dt - (i0 : ℚ)
  blendLoop (vecTransposeMul (vec4 1 u (u ^ 2) (u ^ 3)) M) traj i0

/-- The velocity of the evaluator formulas as a function of time, segment
frozen at `i0`. -/
def velocityAt (M : Mat4) (traj : UniformR3SplineTrajectory) (i0 : ℤ) (s : ℚ) : Vec3 :=
  let u := (s - traj.meta.t0) / traj.meta.dt - (i0 : ℚ)
  blendLoop (vecTransposeMul (smul4 (1 / traj.meta.dt) (vec4 0 1 (2 * u) (3 * u ^ 2))) M) traj i0

/-- The acceleration of the evaluator formulas as a function of time, segment
frozen at `i0`. -/
def accelerationAt (M : Mat4) (traj : UniformR3SplineTrajectory) (i0 : ℤ) (s : ℚ) : Vec3 :=
  let u := (s - traj.meta.t0) / traj.meta.dt - (i0 : ℚ)
  blendLoop (vecTransposeMul (smul4 ((1 / traj.meta.dt) ^ 2) (vec4 0 0 2 (6 * u))) M) traj i0

/-- The weight that row `m` of the basis matrix assigns to component `j` of
the active window: the coefficient of `u ^ m` in the blended polynomial. -/
def rowCombo (M : Mat4) (traj : UniformR3SplineTrajectory) (i0 : ℤ) (m : Fin 4) (j : Fin 3) : ℚ :=
  M m 0 * controlPoint traj i0 j + M m 1 * controlPoint traj (i0 + 1) j
    + M m 2 * controlPoint traj (i0 + 2) j + M m 3 * controlPoint traj (i0 + 3) j

/-- Modelled from the spec: the fixed cubic B-spline basis-conversion matrix
`M` (a constant of `spline_base.h`, not among the sources).  The spec fixes
only its role, so every theorem below is generic in the matrix; the entries
here are the standard uniform cubic B-spline basis, used to instantiate
witnesses. -/
def Mspline : Mat4 :=
  ![![1/6, 4/6, 1/6, 0],
    ![-1/2, 0, 1/2, 0],
    ![1/2, -1, 1/2, 0],
    ![-1/6, 1/2, -1/2, 1/6]]

/-- A constant 3-vector, used to build concrete control points. -/
def cpConst (q : ℚ) : Vec3 := fun _ => q

/-- The concrete trajectory of the example in the spec: `t0 = 0`, `dt = 1`,
six control points `p0 .. p5`. -/
def exampleTraj : UniformR3SplineTrajectory :=
  { meta := { t0 := 0, dt := 1, n := 6 },
    holder := [cpConst 0, cpConst 1, cpConst 2, cpConst 3, cpConst 4, cpConst 5] }

/-- A trajectory with no knots at all: `n = 0` and empty storage. -/
def emptyTraj : UniformR3SplineTrajectory :=
  { meta := { t0 := 0, dt := 1, n := 0 }, holder := [] }

/-- A default-constructed evaluation record with recognizable marker values in
every field, to observe which fields an evaluation call leaves untouched. -/
def exampleInit : TrajectoryEvaluation :=
  { position := cpConst 100
    velocity := cpConst 200
    acceleration := cpConst 300
    orientation := ![7, 7, 7, 7]
    angular_velocity := cpConst 400 }

/-! Helper lemmas shared by several claims. -/

/-- A single-interval call to `AddToProblem` registers that interval. -/
lemma addToProblem_single (traj : UniformR3SplineTrajectory) (t1 t2 : ℚ) :
    addToProblem traj [(t1, t2)] = Except.ok (registerOutput traj t1 t2) := rfl

/-- Membership in the index list produced by the registration loop. -/
lemma mem_range_shift (a b k : ℤ) :
    k ∈ (List.range (b - a).toNat).map (fun j : ℕ => a + (j : ℤ)) ↔ a ≤ k ∧ k < b := by
  simp only [List.mem_map, List.mem_range]
  constructor
  · rintro ⟨j, hj, rfl⟩
    omega
  · rintro ⟨h1, h2⟩
    exact ⟨(k - a).toNat, by omega, by omega⟩

/-- The index list produced by the registration loop is strictly increasing. -/
lemma pairwise_range_shift (a : ℤ) (m : ℕ) :
    ((List.range m).map (fun j : ℕ => a + (j : ℤ))).Pairwise (· < ·) :=
  List.Pairwise.map _ (fun x y h => by omega) (List.pairwise_lt_range m)

/-- Setting the entry just appended overwrites the fresh buffer. -/
lemma set_append_singleton {α : Type} (l : List α) (z c : α) :
    (l ++ [z]).set l.length c = l ++ [c] := by
  induction l with
  | nil => rfl
  | cons a l ih =>
    show a :: ((l ++ [z]).set l.length c) = a :: (l ++ [c])
    rw [ih]

/-- The parameter blocks registered for `(t1, t2)` are exactly the holder
indices of the inclusive window `[i1, i2 + 3]`. -/
lemma registerOutput_mem_blocks (traj : UniformR3SplineTrajectory) (t1 t2 : ℚ) (k : ℤ) :
    k ∈ (registerOutput traj t1 t2).parameter_blocks ↔
      (calculateIndexAndInterpolationAmount traj.meta.t0 traj.meta.dt t1).1 ≤ k ∧
      k ≤ (calculateIndexAndInterpolationAmount traj.meta.t0 traj.meta.dt t2).1 + 3 := by
  show k ∈ (List.range _).map _ ↔ _
  rw [show ((calculateIndexAndInterpolationAmount traj.meta.t0 traj.meta.dt t2).1 + 4 -
      (calculateIndexAndInterpolationAmount traj.meta.t0 traj.meta.dt t1).1) =
      ((calculateIndexAndInterpolationAmount traj.meta.t0 traj.meta.dt t2).1 + 4) -
      (calculateIndexAndInterpolationAmount traj.meta.t0 traj.meta.dt t1).1 from rfl]
  rw [mem_range_shift]
  omega

/-- C4: for every single time interval `(t1, t2)` with resolved indices `i1`
and `i2`, registration exposes exactly the knots in `[i1, i2 + 3]` inclusive,
each as one parameter block of size 3, in increasing index order, and fills the
output metadata with `dt` unchanged, `n = i2 + 4 - i1 + 1` and
`t0 = t0 + i1 * dt`. -/
theorem addToProblem_single_interval_window (traj : UniformR3SplineTrajectory) (t1 t2 : ℚ) :
    addToProblem traj [(t1, t2)] = Except.ok (registerOutput traj t1 t2) ∧
    (∀ k : ℤ, k ∈ (registerOutput traj t1 t2).parameter_blocks ↔
      (calculateIndexAndInterpolationAmount traj.meta.t0 traj.meta.dt t1).1 ≤ k ∧
      k ≤ (calculateIndexAndInterpolationAmount traj.meta.t0 traj.meta.dt t2).1 + 3) ∧
    (registerOutput traj t1 t2).parameter_blocks.Pairwise (· < ·) ∧
    (registerOutput traj t1 t2).parameter_sizes.length =
      (registerOutput traj t1 t2).parameter_blocks.length ∧
    (∀ sz ∈ (registerOutput traj t1 t2).parameter_sizes, sz = 3) ∧
    (registerOutput traj t1 t2).meta.dt = traj.meta.dt ∧
    (registerOutput traj t1 t2).meta.n =
      (calculateIndexAndInterpolationAmount traj.meta.t0 traj.meta.dt t2).1 + 4 -
      (calculateIndexAndInterpolationAmount traj.meta.t0 traj.meta.dt t1).1 + 1 ∧
    (registerOutput traj t1 t2).meta.t0 =
      traj.meta.t0 +
      ((calculateIndexAndInterpolationAmount traj.meta.t0 traj.meta.dt t1).1 : ℚ) *
        traj.meta.dt := by
  refine ⟨rfl, registerOutput_mem_blocks traj t1 t2, ?_, ?_, ?_, rfl, rfl, rfl⟩
  · exact pairwise_range_shift _ _
  · exact List.length_map _ _
  · intro sz hsz
    simp only [registerOutput, List.mem_map] at hsz
    obtain ⟨_, _, h⟩ := hsz
    exact h.symm

/-- C8: a registration call with more than one time interval fails immediately
with the length error, producing no output. -/
theorem addToProblem_multi_interval_rejected (traj : UniformR3SplineTrajectory)
    (times : List (ℚ × ℚ)) (h : 1 < times.length) :
    addToProblem traj times = Except.error SplineError.lengthError := by
  match times with
  | [] => simp at h
  | [tt] => simp at h
  | tt1 :: tt2 :: rest => rfl

/-- C8 witness: two intervals are rejected with the length error. -/
theorem addToProblem_multi_interval_rejected_witness :
    1 < ([((0 : ℚ), (1 : ℚ)), (1, 2)] : List (ℚ × ℚ)).length ∧
    addToProblem exampleTraj [((0 : ℚ), (1 : ℚ)), (1, 2)] =
      Except.error SplineError.lengthError :=
  ⟨by decide, addToProblem_multi_interval_rejected exampleTraj _ (by decide)⟩

/-- C9: the empty interval list is rejected with the same length error as the
multi-interval case, rather than registering nothing and succeeding. -/
theorem addToProblem_empty_rejected (traj : UniformR3SplineTrajectory) :
    addToProblem traj ([] : List (ℚ × ℚ)) = Except.error SplineError.lengthError := rfl

/-- C10: registration performs no range validation on the computed knot
indices: even when `i1 < 0` or `i2 + 3` is not below the knot count, the call
succeeds (never an out-of-range error) and exposes exactly the indices of
`[i1, i2 + 3]`. -/
theorem addToProblem_no_range_validation (traj : UniformR3SplineTrajectory) (t1 t2 : ℚ)
    (h : (calculateIndexAndInterpolationAmount traj.meta.t0 traj.meta.dt t1).1 < 0 ∨
      traj.meta.n ≤ (calculateIndexAndInterpolationAmount traj.meta.t0 traj.meta.dt t2).1 + 3) :
    addToProblem traj [(t1, t2)] = Except.ok (registerOutput traj t1 t2) ∧
    (∀ k : ℤ, k ∈ (registerOutput traj t1 t2).parameter_blocks ↔
      (calculateIndexAndInterpolationAmount traj.meta.t0 traj.meta.dt t1).1 ≤ k ∧
      k ≤ (calculateIndexAndInterpolationAmount traj.meta.t0 traj.meta.dt t2).1 + 3) :=
  ⟨rfl, registerOutput_mem_blocks traj t1 t2⟩

/-- C10 witness: registering the interval `(0, 1)` on a trajectory with zero
knots succeeds and exposes indices `0 .. 4`, none of which exist. -/
theorem addToProblem_no_range_validation_witness :
    ((calculateIndexAndInterpolationAmount emptyTraj.meta.t0 emptyTraj.meta.dt 0).1 < 0 ∨
      emptyTraj.meta.n ≤
        (calculateIndexAndInterpolationAmount emptyTraj.meta.t0 emptyTraj.meta.dt 1).1 + 3) ∧
    (addToProblem emptyTraj [(0, 1)] = Except.ok (registerOutput emptyTraj 0 1) ∧
     (∀ k : ℤ, k ∈ (registerOutput emptyTraj 0 1).parameter_blocks ↔
       (calculateIndexAndInterpolationAmount emptyTraj.meta.t0 emptyTraj.meta.dt 0).1 ≤ k ∧
       k ≤ (calculateIndexAndInterpolationAmount emptyTraj.meta.t0 emptyTraj.meta.dt 1).1 + 3)) := by
  have hp : (calculateIndexAndInterpolationAmount emptyTraj.meta.t0 emptyTraj.meta.dt 0).1 < 0 ∨
      emptyTraj.meta.n ≤
        (calculateIndexAndInterpolationAmount emptyTraj.meta.t0 emptyTraj.meta.dt 1).1 + 3 := by
    right
    norm_num [calculateIndexAndInterpolationAmount, emptyTraj]
  exact ⟨hp, addToProblem_no_range_validation emptyTraj 0 1 hp⟩

/-- C2 counterexample: for the interval `(0, 1/2)` on the six-knot example
trajectory, registration exposes 4 parameter blocks but writes `n = 5` into the
output metadata, so the metadata field does not equal the count of exposed
points. -/
theorem addToProblem_meta_n_mismatch :
    (addToProblem exampleTraj [(0, 1/2)]).map
      (fun o => (o.meta.n, (o.parameter_blocks.length : ℤ))) = Except.ok (5, 4) ∧
    (5 : ℤ) ≠ (4 : ℤ) := by
  constructor
  · have h1 : (calculateIndexAndInterpolationAmount exampleTraj.meta.t0
        exampleTraj.meta.dt 0).1 = 0 := by
      norm_num [calculateIndexAndInterpolationAmount, exampleTraj]
    have h2 : (calculateIndexAndInterpolationAmount exampleTraj.meta.t0
        exampleTraj.meta.dt (1/2)).1 = 0 := by
      norm_num [calculateIndexAndInterpolationAmount, exampleTraj]
    rw [addToProblem_single]
    simp only [registerOutput]
    rw [h1, h2]
    rfl
  · decide

/-- C2 amended: for a single interval `(t1, t2)` with `t1 ≤ t2` and positive
knot spacing, the metadata field `n` written by registration equals the count
of exposed parameter blocks plus one (the code writes `i2 + 4 - i1 + 1` while
exposing `i2 + 4 - i1` blocks). -/
theorem addToProblem_meta_n_blocks_plus_one (traj : UniformR3SplineTrajectory) (t1 t2 : ℚ)
    (hdt : 0 < traj.meta.dt) (h12 : t1 ≤ t2) :
    addToProblem traj [(t1, t2)] = Except.ok (registerOutput traj t1 t2) ∧
    (registerOutput traj t1 t2).meta.n =
      ((registerOutput traj t1 t2).parameter_blocks.length : ℤ) + 1 := by
  refine ⟨rfl, ?_⟩
  have hle : (calculateIndexAndInterpolationAmount traj.meta.t0 traj.meta.dt t1).1 ≤
      (calculateIndexAndInterpolationAmount traj.meta.t0 traj.meta.dt t2).1 := by
    apply Int.floor_le_floor
    gcongr
  simp only [registerOutput, List.length_map, List.length_range]
  omega

/-- C2 amended witness: on the example trajectory with the interval
`(0, 1/2)`, the metadata `n` is the block count plus one. -/
theorem addToProblem_meta_n_blocks_plus_one_witness :
    0 < exampleTraj.meta.dt ∧ ((0 : ℚ) ≤ 1/2) ∧
    (addToProblem exampleTraj [(0, 1/2)] = Except.ok (registerOutput exampleTraj 0 (1/2)) ∧
     (registerOutput exampleTraj 0 (1/2)).meta.n =
       ((registerOutput exampleTraj 0 (1/2)).parameter_blocks.length : ℤ) + 1) := by
  have hdt : 0 < exampleTraj.meta.dt := by norm_num [exampleTraj]
  exact ⟨hdt, by norm_num,
    addToProblem_meta_n_blocks_plus_one exampleTraj 0 (1/2) hdt (by norm_num)⟩

/-- C6: appending a knot increments the knot count by exactly one, the new
point reads back at index `n - 1` via `ControlPoint`, every existing control
point is unchanged, and `t0` and `dt` are unchanged. -/
theorem appendKnot_adds_one_knot (traj : UniformR3SplineTrajectory) (cp : Vec3)
    (hinv : traj.meta.n = (traj.holder.length : ℤ)) :
    (appendKnot traj cp).meta.n = traj.meta.n + 1 ∧
    controlPoint (appendKnot traj cp) ((appendKnot traj cp).meta.n - 1) = cp ∧
    (∀ i : ℤ, 0 ≤ i → i < traj.meta.n →
      controlPoint (appendKnot traj cp) i = controlPoint traj i) ∧
    (appendKnot traj cp).meta.t0 = traj.meta.t0 ∧
    (appendKnot traj cp).meta.dt = traj.meta.dt := by
  have hholder : (appendKnot traj cp).holder = traj.holder ++ [cp] :=
    set_append_singleton traj.holder zeroVec3 cp
  refine ⟨rfl, ?_, ?_, rfl, rfl⟩
  · show controlPoint (appendKnot traj cp) (traj.meta.n + 1 - 1) = cp
    unfold controlPoint
    rw [hholder]
    have hidx : (traj.meta.n + 1 - 1).toNat = traj.holder.length := by omega
    rw [hidx, List.getD_eq_getElem?_getD, List.getElem?_concat_length]
    rfl
  · intro i h0 hn
    unfold controlPoint
    rw [hholder]
    have hlt : i.toNat < traj.holder.length := by omega
    rw [List.getD_eq_getElem?_getD, List.getD_eq_getElem?_getD, List.getElem?_append_left hlt]

/-- C6 witness: appending the constant point 9 to the six-knot example
trajectory behaves as stated. -/
theorem appendKnot_adds_one_knot_witness :
    exampleTraj.meta.n = (exampleTraj.holder.length : ℤ) ∧
    ((appendKnot exampleTraj (cpConst 9)).meta.n = exampleTraj.meta.n + 1 ∧
     controlPoint (appendKnot exampleTraj (cpConst 9))
       ((appendKnot exampleTraj (cpConst 9)).meta.n - 1) = cpConst 9 ∧
     (∀ i : ℤ, 0 ≤ i → i < exampleTraj.meta.n →
       controlPoint (appendKnot exampleTraj (cpConst 9)) i = controlPoint exampleTraj i) ∧
     (appendKnot exampleTraj (cpConst 9)).meta.t0 = exampleTraj.meta.t0 ∧
     (appendKnot exampleTraj (cpConst 9)).meta.dt = exampleTraj.meta.dt) := by
  have hinv : exampleTraj.meta.n = (exampleTraj.holder.length : ℤ) := rfl
  exact ⟨hinv, appendKnot_adds_one_knot exampleTraj (cpConst 9) hinv⟩

/-! Helper lemmas for the evaluation path. -/

/-- A valid query returns the computed fields. -/
lemma evaluate_ok_of_valid (M : Mat4) (init : TrajectoryEvaluation)
    (traj : UniformR3SplineTrajectory) (t : ℚ) (flags : ℕ)
    (h : ¬(traj.meta.n < 4 ∨
      (calculateIndexAndInterpolationAmount traj.meta.t0 traj.meta.dt t).1 < 0 ∨
      (calculateIndexAndInterpolationAmount traj.meta.t0 traj.meta.dt t).1 > traj.meta.n - 4)) :
    evaluate M init traj t flags = Except.ok (evaluateFields M init traj t flags) := by
  simp only [evaluate]
  rw [if_neg h]

/-- An invalid query throws the range error. -/
lemma evaluate_error_of_invalid (M : Mat4) (init : TrajectoryEvaluation)
    (traj : UniformR3SplineTrajectory) (t : ℚ) (flags : ℕ)
    (h : traj.meta.n < 4 ∨
      (calculateIndexAndInterpolationAmount traj.meta.t0 traj.meta.dt t).1 < 0 ∨
      (calculateIndexAndInterpolationAmount traj.meta.t0 traj.meta.dt t).1 > traj.meta.n - 4) :
    evaluate M init traj t flags =
      Except.error (SplineError.rangeError t
        (calculateIndexAndInterpolationAmount traj.meta.t0 traj.meta.dt t).1 traj.meta.n) := by
  simp only [evaluate]
  rw [if_pos h]

/-- Inversion: a successful evaluation means the range check passed and the
result is the computed record. -/
lemma evaluate_ok_inv (M : Mat4) (init : TrajectoryEvaluation)
    (traj : UniformR3SplineTrajectory) (t : ℚ) (flags : ℕ) (r : TrajectoryEvaluation)
    (h : evaluate M init traj t flags = Except.ok r) :
    r = evaluateFields M init traj t flags ∧
    ¬(traj.meta.n < 4 ∨
      (calculateIndexAndInterpolationAmount traj.meta.t0 traj.meta.dt t).1 < 0 ∨
      (calculateIndexAndInterpolationAmount traj.meta.t0 traj.meta.dt t).1 > traj.meta.n - 4) := by
  by_cases hc : traj.meta.n < 4 ∨
      (calculateIndexAndInterpolationAmount traj.meta.t0 traj.meta.dt t).1 < 0 ∨
      (calculateIndexAndInterpolationAmount traj.meta.t0 traj.meta.dt t).1 > traj.meta.n - 4
  · rw [evaluate_error_of_invalid M init traj t flags hc] at h
    cases h
  · rw [evaluate_ok_of_valid M init traj t flags hc] at h
    exact ⟨(Except.ok.inj h).symm, hc⟩

/-- C1: evaluation fails with the out-of-range error exactly when the knot
count is below 4, or the resolved segment index is negative, or it exceeds
`n - 4`; nothing is clamped or extrapolated (an error comes back, not a
value), and whenever the index lies in `[0, n - 4]` with `n >= 4` the
evaluation succeeds. -/
theorem evaluate_out_of_range_iff (M : Mat4) (init : TrajectoryEvaluation)
    (traj : UniformR3SplineTrajectory) (t : ℚ) (flags : ℕ) :
    (evaluate M init traj t flags =
        Except.error (SplineError.rangeError t
          (calculateIndexAndInterpolationAmount traj.meta.t0 traj.meta.dt t).1 traj.meta.n) ↔
      (traj.meta.n < 4 ∨
        (calculateIndexAndInterpolationAmount traj.meta.t0 traj.meta.dt t).1 < 0 ∨
        (calculateIndexAndInterpolationAmount traj.meta.t0 traj.meta.dt t).1 > traj.meta.n - 4)) ∧
    ((∃ r, evaluate M init traj t flags = Except.ok r) ↔
      ¬(traj.meta.n < 4 ∨
        (calculateIndexAndInterpolationAmount traj.meta.t0 traj.meta.dt t).1 < 0 ∨
        (calculateIndexAndInterpolationAmount traj.meta.t0 traj.meta.dt t).1 > traj.meta.n - 4)) := by
  by_cases hc : traj.meta.n < 4 ∨
      (calculateIndexAndInterpolationAmount traj.meta.t0 traj.meta.dt t).1 < 0 ∨
      (calculateIndexAndInterpolationAmount traj.meta.t0 traj.meta.dt t).1 > traj.meta.n - 4
  · refine ⟨⟨fun _ => hc, fun _ => evaluate_error_of_invalid M init traj t flags hc⟩, ?_, ?_⟩
    · rintro ⟨r, hr⟩
      rw [evaluate_error_of_invalid M init traj t flags hc] at hr
      cases hr
    · intro hn
      exact absurd hc hn
  · refine ⟨⟨?_, fun h => absurd h hc⟩,
      fun _ => hc, fun _ => ⟨_, evaluate_ok_of_valid M init traj t flags hc⟩⟩
    intro he
    rw [evaluate_ok_of_valid M init traj t flags hc] at he
    cases he

/-- C7: with a valid query time, `Evaluate` succeeds whatever the flag set is
(in particular with only the position flag set), and every field whose flag is
not set keeps the value of the default-constructed result. -/
theorem evaluate_flag_frame (M : Mat4) (init : TrajectoryEvaluation)
    (traj : UniformR3SplineTrajectory) (t : ℚ) (flags : ℕ)
    (hvalid : ¬(traj.meta.n < 4 ∨
      (calculateIndexAndInterpolationAmount traj.meta.t0 traj.meta.dt t).1 < 0 ∨
      (calculateIndexAndInterpolationAmount traj.meta.t0 traj.meta.dt t).1 > traj.meta.n - 4)) :
    evaluate M init traj t flags = Except.ok (evaluateFields M init traj t flags) ∧
    (testFlag flags EvalPosition = false →
      (evaluateFields M init traj t flags).position = init.position) ∧
    (testFlag flags EvalVelocity = false →
      (evaluateFields M init traj t flags).velocity = init.velocity) ∧
    (testFlag flags EvalAcceleration = false →
      (evaluateFields M init traj t flags).acceleration = init.acceleration) ∧
    (testFlag flags EvalOrientation = false →
      (evaluateFields M init traj t flags).orientation = init.orientation) ∧
    (testFlag flags EvalAngularVelocity = false →
      (evaluateFields M init traj t flags).angular_velocity = init.angular_velocity) := by
  refine ⟨evaluate_ok_of_valid M init traj t flags hvalid, ?_, ?_, ?_, ?_, ?_⟩
  · intro hf
    cases h2 : testFlag flags EvalVelocity <;>
      cases h3 : testFlag flags EvalAcceleration <;>
        cases h4 : testFlag flags EvalOrientation <;>
          cases h5 : testFlag flags EvalAngularVelocity <;>
            simp [evaluateFields, hf, h2, h3, h4, h5]
  · intro hf
    cases h1 : testFlag flags EvalPosition <;>
      cases h3 : testFlag flags EvalAcceleration <;>
        cases h4 : testFlag flags EvalOrientation <;>
          cases h5 : testFlag flags EvalAngularVelocity <;>
            simp [evaluateFields, h1, hf, h3, h4, h5]
  · intro hf
    cases h1 : testFlag flags EvalPosition <;>
      cases h2 : testFlag flags EvalVelocity <;>
        cases h4 : testFlag flags EvalOrientation <;>
          cases h5 : testFlag flags EvalAngularVelocity <;>
            simp [evaluateFields, h1, h2, hf, h4, h5]
  · intro hf
    cases h1 : testFlag flags EvalPosition <;>
      cases h2 : testFlag flags EvalVelocity <;>
        cases h3 : testFlag flags EvalAcceleration <;>
          cases h5 : testFlag flags EvalAngularVelocity <;>
            simp [evaluateFields, h1, h2, h3, hf, h5]
  · intro hf
    cases h1 : testFlag flags EvalPosition <;>
      cases h2 : testFlag flags EvalVelocity <;>
        cases h3 : testFlag flags EvalAcceleration <;>
          cases h4 : testFlag flags EvalOrientation <;>
            simp [evaluateFields, h1, h2, h3, h4, hf]

/-- C7 witness: evaluating the example trajectory at `t = 5/2` with only the
position flag set succeeds and leaves the marker values of the other fields
untouched. -/
theorem evaluate_flag_frame_witness :
    ¬(exampleTraj.meta.n < 4 ∨
      (calculateIndexAndInterpolationAmount exampleTraj.meta.t0 exampleTraj.meta.dt (5/2)).1 < 0 ∨
      (calculateIndexAndInterpolationAmount exampleTraj.meta.t0 exampleTraj.meta.dt (5/2)).1 >
        exampleTraj.meta.n - 4) ∧
    (evaluate Mspline exampleInit exampleTraj (5/2) EvalPosition =
        Except.ok (evaluateFields Mspline exampleInit exampleTraj (5/2) EvalPosition) ∧
     (testFlag EvalPosition EvalPosition = false →
       (evaluateFields Mspline exampleInit exampleTraj (5/2) EvalPosition).position =
         exampleInit.position) ∧
     (testFlag EvalPosition EvalVelocity = false →
       (evaluateFields Mspline exampleInit exampleTraj (5/2) EvalPosition).velocity =
         exampleInit.velocity) ∧
     (testFlag EvalPosition EvalAcceleration = false →
       (evaluateFields Mspline exampleInit exampleTraj (5/2) EvalPosition).acceleration =
         exampleInit.acceleration) ∧
     (testFlag EvalPosition EvalOrientation = false →
       (evaluateFields Mspline exampleInit exampleTraj (5/2) EvalPosition).orientation =
         exampleInit.orientation) ∧
     (testFlag EvalPosition EvalAngularVelocity = false →
       (evaluateFields Mspline exampleInit exampleTraj (5/2) EvalPosition).angular_velocity =
         exampleInit.angular_velocity)) := by
  have hvalid : ¬(exampleTraj.meta.n < 4 ∨
      (calculateIndexAndInterpolationAmount exampleTraj.meta.t0 exampleTraj.meta.dt (5/2)).1 < 0 ∨
      (calculateIndexAndInterpolationAmount exampleTraj.meta.t0 exampleTraj.meta.dt (5/2)).1 >
        exampleTraj.meta.n - 4) := by
    norm_num [calculateIndexAndInterpolationAmount, exampleTraj]
  exact ⟨hvalid, evaluate_flag_frame Mspline exampleInit exampleTraj (5/2) EvalPosition hvalid⟩

/-- The accumulation loop computes the weight-sum of the spec. -/
lemma specWeightSum_eq_blendLoop (B : Vec4) (traj : UniformR3SplineTrajectory) (i0 : ℤ) :
    specWeightSum B traj i0 = blendLoop B traj i0 := rfl

/-- The row-times-matrix product of the spec is the transposed product of the
source. -/
lemma specRowTimesM_eq_vecTransposeMul (U : Vec4) (M : Mat4) :
    specRowTimesM U M = vecTransposeMul U M := by
  funext j
  simp [specRowTimesM, vecTransposeMul, Fin.sum_univ_four]

/-- C3: on a successful evaluation that requests position, velocity and
acceleration, the returned fields are the row vectors `[1, u, u^2, u^3]`,
`(1/dt) * [0, 1, 2u, 3u^2]` and `(1/dt)^2 * [0, 0, 2, 6u]`, each
left-multiplied as a row vector by the basis matrix, then weight-summed over
the four active control points starting from a zero accumulator. -/
theorem evaluate_builds_spec_rows (M : Mat4) (init : TrajectoryEvaluation)
    (traj : UniformR3SplineTrajectory) (t : ℚ) (flags : ℕ) (r : TrajectoryEvaluation)
    (hr : evaluate M init traj t flags = Except.ok r)
    (hp : testFlag flags EvalPosition = true)
    (hv : testFlag flags EvalVelocity = true)
    (ha : testFlag flags EvalAcceleration = true) :
    r.position = specWeightSum (specRowTimesM (specPositionRow
        (calculateIndexAndInterpolationAmount traj.meta.t0 traj.meta.dt t).2) M) traj
        (calculateIndexAndInterpolationAmount traj.meta.t0 traj.meta.dt t).1 ∧
    r.velocity = specWeightSum (specRowTimesM (specVelocityRow traj.meta.dt
        (calculateIndexAndInterpolationAmount traj.meta.t0 traj.meta.dt t).2) M) traj
        (calculateIndexAndInterpolationAmount traj.meta.t0 traj.meta.dt t).1 ∧
    r.acceleration = specWeightSum (specRowTimesM (specAccelerationRow traj.meta.dt
        (calculateIndexAndInterpolationAmount traj.meta.t0 traj.meta.dt t).2) M) traj
        (calculateIndexAndInterpolationAmount traj.meta.t0 traj.meta.dt t).1 := by
  obtain ⟨hre, -⟩ := evaluate_ok_inv M init traj t flags r hr
  subst hre
  refine ⟨?_, ?_, ?_⟩ <;>
    cases h4 : testFlag flags EvalOrientation <;>
      cases h5 : testFlag flags EvalAngularVelocity <;>
        simp [evaluateFields, hp, hv, ha, h4, h5, specPositionRow, specVelocityRow,
          specAccelerationRow, specWeightSum_eq_blendLoop, specRowTimesM_eq_vecTransposeMul]

/-- C3 witness: the successful full evaluation of the example trajectory at
`t = 5/2` with all three derivative flags set builds exactly the spec rows. -/
theorem evaluate_builds_spec_rows_witness :
    evaluate Mspline exampleInit exampleTraj (5/2) 7 =
      Except.ok (evaluateFields Mspline exampleInit exampleTraj (5/2) 7) ∧
    testFlag 7 EvalPosition = true ∧
    testFlag 7 EvalVelocity = true ∧
    testFlag 7 EvalAcceleration = true ∧
    ((evaluateFields Mspline exampleInit exampleTraj (5/2) 7).position =
      specWeightSum (specRowTimesM (specPositionRow
        (calculateIndexAndInterpolationAmount exampleTraj.meta.t0 exampleTraj.meta.dt
          (5/2)).2) Mspline) exampleTraj
        (calculateIndexAndInterpolationAmount exampleTraj.meta.t0 exampleTraj.meta.dt (5/2)).1 ∧
     (evaluateFields Mspline exampleInit exampleTraj (5/2) 7).velocity =
      specWeightSum (specRowTimesM (specVelocityRow exampleTraj.meta.dt
        (calculateIndexAndInterpolationAmount exampleTraj.meta.t0 exampleTraj.meta.dt
          (5/2)).2) Mspline) exampleTraj
        (calculateIndexAndInterpolationAmount exampleTraj.meta.t0 exampleTraj.meta.dt (5/2)).1 ∧
     (evaluateFields Mspline exampleInit exampleTraj (5/2) 7).acceleration =
      specWeightSum (specRowTimesM (specAccelerationRow exampleTraj.meta.dt
        (calculateIndexAndInterpolationAmount exampleTraj.meta.t0 exampleTraj.meta.dt
          (5/2)).2) Mspline) exampleTraj
        (calculateIndexAndInterpolationAmount exampleTraj.meta.t0 exampleTraj.meta.dt (5/2)).1) := by
  have hvalid : ¬(exampleTraj.meta.n < 4 ∨
      (calculateIndexAndInterpolationAmount exampleTraj.meta.t0 exampleTraj.meta.dt (5/2)).1 < 0 ∨
      (calculateIndexAndInterpolationAmount exampleTraj.meta.t0 exampleTraj.meta.dt (5/2)).1 >
        exampleTraj.meta.n - 4) := by
    norm_num [calculateIndexAndInterpolationAmount, exampleTraj]
  have hr := evaluate_ok_of_valid Mspline exampleInit exampleTraj (5/2) 7 hvalid
  exact ⟨hr, by decide, by decide, by decide,
    evaluate_builds_spec_rows Mspline exampleInit exampleTraj (5/2) 7
      (evaluateFields Mspline exampleInit exampleTraj (5/2) 7) hr
      (by decide) (by decide) (by decide)⟩

/-! Helper lemmas for the derivative claim. -/

/-- Component 0 of a built 4-vector. -/
lemma vec4_zero (a b c d : ℚ) : vec4 a b c d 0 = a := rfl

/-- Component 1 of a built 4-vector. -/
lemma vec4_one (a b c d : ℚ) : vec4 a b c d 1 = b := rfl

/-- Component 2 of a built 4-vector. -/
lemma vec4_two (a b c d : ℚ) : vec4 a b c d 2 = c := rfl

/-- Component 3 of a built 4-vector. -/
lemma vec4_three (a b c d : ℚ) : vec4 a b c d 3 = d := rfl

/-- The accumulation loop applied to a row-times-matrix product, written out. -/
lemma blend_vecTransposeMul (U : Vec4) (M : Mat4) (traj : UniformR3SplineTrajectory)
    (i0 : ℤ) (j : Fin 3) :
    blendLoop (vecTransposeMul U M) traj i0 j =
      0 + (U 0 * M 0 0 + U 1 * M 1 0 + U 2 * M 2 0 + U 3 * M 3 0) * controlPoint traj i0 j
        + (U 0 * M 0 1 + U 1 * M 1 1 + U 2 * M 2 1 + U 3 * M 3 1) * controlPoint traj (i0 + 1) j
        + (U 0 * M 0 2 + U 1 * M 1 2 + U 2 * M 2 2 + U 3 * M 3 2) * controlPoint traj (i0 + 2) j
        + (U 0 * M 0 3 + U 1 * M 1 3 + U 2 * M 2 3 + U 3 * M 3 3) * controlPoint traj (i0 + 3) j :=
  rfl

/-- The position of a frozen segment is a cubic polynomial in the normalized
parameter, with the row combinations as coefficients. -/
lemma positionAt_poly (M : Mat4) (traj : UniformR3SplineTrajectory) (i0 : ℤ) (j : Fin 3) (s : ℚ) :
    positionAt M traj i0 s j =
      rowCombo M traj i0 0 j
        + rowCombo M traj i0 1 j * ((s - traj.meta.t0) / traj.meta.dt - (i0 : ℚ))
        + rowCombo M traj i0 2 j * ((s - traj.meta.t0) / traj.meta.dt - (i0 : ℚ)) ^ 2
        + rowCombo M traj i0 3 j * ((s - traj.meta.t0) / traj.meta.dt - (i0 : ℚ)) ^ 3 := by
  show blendLoop (vecTransposeMul (vec4 1 ((s - traj.meta.t0) / traj.meta.dt - (i0 : ℚ))
      (((s - traj.meta.t0) / traj.meta.dt - (i0 : ℚ)) ^ 2)
      (((s - traj.meta.t0) / traj.meta.dt - (i0 : ℚ)) ^ 3)) M) traj i0 j = _
  rw [blend_vecTransposeMul]
  simp only [vec4_zero, vec4_one, vec4_two, vec4_three, rowCombo]
  ring

/-- The velocity of a frozen segment, as the scaled derivative polynomial. -/
lemma velocityAt_poly (M : Mat4) (traj : UniformR3SplineTrajectory) (i0 : ℤ) (j : Fin 3) (s : ℚ) :
    velocityAt M traj i0 s j =
      (1 / traj.meta.dt) *
        (rowCombo M traj i0 1 j
          + rowCombo M traj i0 2 j * (2 * ((s - traj.meta.t0) / traj.meta.dt - (i0 : ℚ)))
          + rowCombo M traj i0 3 j * (3 * ((s - traj.meta.t0) / traj.meta.dt - (i0 : ℚ)) ^ 2)) := by
  show blendLoop (vecTransposeMul (smul4 (1 / traj.meta.dt)
      (vec4 0 1 (2 * ((s - traj.meta.t0) / traj.meta.dt - (i0 : ℚ)))
        (3 * ((s - traj.meta.t0) / traj.meta.dt - (i0 : ℚ)) ^ 2))) M) traj i0 j = _
  rw [blend_vecTransposeMul]
  simp only [smul4, vec4_zero, vec4_one, vec4_two, vec4_three, rowCombo]
  ring

/-- The acceleration of a frozen segment, as the twice-scaled second
derivative polynomial. -/
lemma accelerationAt_poly (M : Mat4) (traj : UniformR3SplineTrajectory) (i0 : ℤ) (j : Fin 3)
    (s : ℚ) :
    accelerationAt M traj i0 s j =
      (1 / traj.meta.dt) ^ 2 *
        (2 * rowCombo M traj i0 2 j
          + 6 * ((s - traj.meta.t0) / traj.meta.dt - (i0 : ℚ)) * rowCombo M traj i0 3 j) := by
  show blendLoop (vecTransposeMul (smul4 ((1 / traj.meta.dt) ^ 2)
      (vec4 0 0 2 (6 * ((s - traj.meta.t0) / traj.meta.dt - (i0 : ℚ))))) M) traj i0 j = _
  rw [blend_vecTransposeMul]
  simp only [smul4, vec4_zero, vec4_one, vec4_two, vec4_three, rowCombo]
  ring

/-- Derivative of a cubic polynomial in the affine parameter `(s - t0)/dt - i0`. -/
lemma hasDerivAt_segment_cubic (t0 dt i0q a b c d t : ℚ) :
    HasDerivAt
      (fun s : ℚ => a + b * ((s - t0) / dt - i0q) + c * ((s - t0) / dt - i0q) ^ 2
        + d * ((s - t0) / dt - i0q) ^ 3)
      ((1 / dt) * (b + c * (2 * ((t - t0) / dt - i0q)) + d * (3 * ((t - t0) / dt - i0q) ^ 2)))
      t := by
  have hu : HasDerivAt (fun s : ℚ => (s - t0) / dt - i0q) (1 / dt) t :=
    (((hasDerivAt_id t).sub_const t0).div_const dt).sub_const i0q
  have h1 := hu.const_mul b
  have h2 := (hu.pow 2).const_mul c
  have h3 := (hu.pow 3).const_mul d
  have h := (((hasDerivAt_const t a).add h1).add h2).add h3
  convert h using 1
  ring

/-- Derivative of the scaled quadratic velocity polynomial. -/
lemma hasDerivAt_segment_quadratic (t0 dt i0q b c d t : ℚ) :
    HasDerivAt
      (fun s : ℚ => (1 / dt) * (b + c * (2 * ((s - t0) / dt - i0q))
        + d * (3 * ((s - t0) / dt - i0q) ^ 2)))
      ((1 / dt) ^ 2 * (2 * c + 6 * ((t - t0) / dt - i0q) * d)) t := by
  have hu : HasDerivAt (fun s : ℚ => (s - t0) / dt - i0q) (1 / dt) t :=
    (((hasDerivAt_id t).sub_const t0).div_const dt).sub_const i0q
  have h2 := (hu.const_mul 2).const_mul c
  have h3 := ((hu.pow 2).const_mul 3).const_mul d
  have h := ((((hasDerivAt_const t b).add h2).add h3).const_mul (1 / dt))
  convert h using 1
  ring

/-- C5: with the segment index frozen at the resolved value, the velocity the
evaluator returns is the exact time derivative of the position it returns, and
the acceleration is the exact time derivative of the velocity (hence the exact
second derivative of the position); this holds for any basis matrix, and the
fields of a successful evaluation agree with the frozen-segment functions at
the query time. -/
theorem velocity_acceleration_exact_derivatives (M : Mat4) (init : TrajectoryEvaluation)
    (traj : UniformR3SplineTrajectory) (t : ℚ) (flags : ℕ) :
    (∀ j : Fin 3, HasDerivAt
      (fun s => positionAt M traj
        (calculateIndexAndInterpolationAmount traj.meta.t0 traj.meta.dt t).1 s j)
      (velocityAt M traj
        (calculateIndexAndInterpolationAmount traj.meta.t0 traj.meta.dt t).1 t j) t) ∧
    (∀ j : Fin 3, HasDerivAt
      (fun s => velocityAt M traj
        (calculateIndexAndInterpolationAmount traj.meta.t0 traj.meta.dt t).1 s j)
      (accelerationAt M traj
        (calculateIndexAndInterpolationAmount traj.meta.t0 traj.meta.dt t).1 t j) t) ∧
    (∀ r : TrajectoryEvaluation, evaluate M init traj t flags = Except.ok r →
      (testFlag flags EvalPosition = true → r.position =
        positionAt M traj
          (calculateIndexAndInterpolationAmount traj.meta.t0 traj.meta.dt t).1 t) ∧
      (testFlag flags EvalVelocity = true → r.velocity =
        velocityAt M traj
          (calculateIndexAndInterpolationAmount traj.meta.t0 traj.meta.dt t).1 t) ∧
      (testFlag flags EvalAcceleration = true → r.acceleration =
        accelerationAt M traj
          (calculateIndexAndInterpolationAmount traj.meta.t0 traj.meta.dt t).1 t)) := by
  refine ⟨?_, ?_, ?_⟩
  · intro j
    have heq : (fun s => positionAt M traj
        (calculateIndexAndInterpolationAmount traj.meta.t0 traj.meta.dt t).1 s j) =
        (fun s => rowCombo M traj
            (calculateIndexAndInterpolationAmount traj.meta.t0 traj.meta.dt t).1 0 j
          + rowCombo M traj
              (calculateIndexAndInterpolationAmount traj.meta.t0 traj.meta.dt t).1 1 j *
            ((s - traj.meta.t0) / traj.meta.dt -
              ((calculateIndexAndInterpolationAmount traj.meta.t0 traj.meta.dt t).1 : ℚ))
          + rowCombo M traj
              (calculateIndexAndInterpolationAmount traj.meta.t0 traj.meta.dt t).1 2 j *
            ((s - traj.meta.t0) / traj.meta.dt -
              ((calculateIndexAndInterpolationAmount traj.meta.t0 traj.meta.dt t).1 : ℚ)) ^ 2
          + rowCombo M traj
              (calculateIndexAndInterpolationAmount traj.meta.t0 traj.meta.dt t).1 3 j *
            ((s - traj.meta.t0) / traj.meta.dt -
              ((calculateIndexAndInterpolationAmount traj.meta.t0 traj.meta.dt t).1 : ℚ)) ^ 3) :=
      funext fun s => positionAt_poly M traj
        (calculateIndexAndInterpolationAmount traj.meta.t0 traj.meta.dt t).1 j s
    rw [heq, velocityAt_poly M traj
      (calculateIndexAndInterpolationAmount traj.meta.t0 traj.meta.dt t).1 j t]
    exact hasDerivAt_segment_cubic traj.meta.t0 traj.meta.dt _ _ _ _ _ t
  · intro j
    have heq : (fun s => velocityAt M traj
        (calculateIndexAndInterpolationAmount traj.meta.t0 traj.meta.dt t).1 s j) =
        (fun s => (1 / traj.meta.dt) *
          (rowCombo M traj
              (calculateIndexAndInterpolationAmount traj.meta.t0 traj.meta.dt t).1 1 j
            + rowCombo M traj
                (calculateIndexAndInterpolationAmount traj.meta.t0 traj.meta.dt t).1 2 j *
              (2 * ((s - traj.meta.t0) / traj.meta.dt -
                ((calculateIndexAndInterpolationAmount traj.meta.t0 traj.meta.dt t).1 : ℚ)))
            + rowCombo M traj
                (calculateIndexAndInterpolationAmount traj.meta.t0 traj.meta.dt t).1 3 j *
              (3 * ((s - traj.meta.t0) / traj.meta.dt -
                ((calculateIndexAndInterpolationAmount traj.meta.t0 traj.meta.dt t).1 : ℚ)) ^ 2))) :=
      funext fun s => velocityAt_poly M traj
        (calculateIndexAndInterpolationAmount traj.meta.t0 traj.meta.dt t).1 j s
    rw [heq, accelerationAt_poly M traj
      (calculateIndexAndInterpolationAmount traj.meta.t0 traj.meta.dt t).1 j t]
    exact hasDerivAt_segment_quadratic traj.meta.t0 traj.meta.dt _ _ _ _ t
  · intro r hr
    obtain ⟨hre, -⟩ := evaluate_ok_inv M init traj t flags r hr
    subst hre
    refine ⟨?_, ?_, ?_⟩ <;> intro hf
    · cases h2 : testFlag flags EvalVelocity <;>
        cases h3 : testFlag flags EvalAcceleration <;>
          cases h4 : testFlag flags EvalOrientation <;>
            cases h5 : testFlag flags EvalAngularVelocity <;>
              simp [evaluateFields, positionAt, calculateIndexAndInterpolationAmount,
                hf, h2, h3, h4, h5]
    · cases h1 : testFlag flags EvalPosition <;>
        cases h3 : testFlag flags EvalAcceleration <;>
          cases h4 : testFlag flags EvalOrientation <;>
            cases h5 : testFlag flags EvalAngularVelocity <;>
              simp [evaluateFields, velocityAt, calculateIndexAndInterpolationAmount,
                h1, hf, h3, h4, h5]
    · cases h1 : testFlag flags EvalPosition <;>
        cases h2 : testFlag flags EvalVelocity <;>
          cases h4 : testFlag flags EvalOrientation <;>
            cases h5 : testFlag flags EvalAngularVelocity <;>
              simp [evaluateFields, accelerationAt, calculateIndexAndInterpolationAmount,
                h1, h2, hf, h4, h5]

/-- C5 witness: on the example trajectory at `t = 5/2`, the frozen-segment
derivative relations hold and the full evaluation agrees with the
frozen-segment functions. -/
theorem velocity_acceleration_exact_derivatives_witness :
    (∀ j : Fin 3, HasDerivAt
      (fun s => positionAt Mspline exampleTraj
        (calculateIndexAndInterpolationAmount exampleTraj.meta.t0 exampleTraj.meta.dt
          (5/2)).1 s j)
      (velocityAt Mspline exampleTraj
        (calculateIndexAndInterpolationAmount exampleTraj.meta.t0 exampleTraj.meta.dt
          (5/2)).1 (5/2) j) (5/2)) ∧
    (∀ j : Fin 3, HasDerivAt
      (fun s => velocityAt Mspline exampleTraj
        (calculateIndexAndInterpolationAmount exampleTraj.meta.t0 exampleTraj.meta.dt
          (5/2)).1 s j)
      (accelerationAt Mspline exampleTraj
        (calculateIndexAndInterpolationAmount exampleTraj.meta.t0 exampleTraj.meta.dt
          (5/2)).1 (5/2) j) (5/2)) ∧
    evaluate Mspline exampleInit exampleTraj (5/2) 7 =
      Except.ok (evaluateFields Mspline exampleInit exampleTraj (5/2) 7) ∧
    (evaluateFields Mspline exampleInit exampleTraj (5/2) 7).position =
      positionAt Mspline exampleTraj
        (calculateIndexAndInterpolationAmount exampleTraj.meta.t0 exampleTraj.meta.dt
          (5/2)).1 (5/2) ∧
    (evaluateFields Mspline exampleInit exampleTraj (5/2) 7).velocity =
      velocityAt Mspline exampleTraj
        (calculateIndexAndInterpolationAmount exampleTraj.meta.t0 exampleTraj.meta.dt
          (5/2)).1 (5/2) ∧
    (evaluateFields Mspline exampleInit exampleTraj (5/2) 7).acceleration =
      accelerationAt Mspline exampleTraj
        (calculateIndexAndInterpolationAmount exampleTraj.meta.t0 exampleTraj.meta.dt
          (5/2)).1 (5/2) := by
  have hvalid : ¬(exampleTraj.meta.n < 4 ∨
      (calculateIndexAndInterpolationAmount exampleTraj.meta.t0 exampleTraj.meta.dt (5/2)).1 < 0 ∨
      (calculateIndexAndInterpolationAmount exampleTraj.meta.t0 exampleTraj.meta.dt (5/2)).1 >
        exampleTraj.meta.n - 4) := by
    norm_num [calculateIndexAndInterpolationAmount, exampleTraj]
  have hr := evaluate_ok_of_valid Mspline exampleInit exampleTraj (5/2) 7 hvalid
  have h := velocity_acceleration_exact_derivatives Mspline exampleInit exampleTraj (5/2) 7
  have h3 := h.2.2 (evaluateFields Mspline exampleInit exampleTraj (5/2) 7) hr
  exact ⟨h.1, h.2.1, hr, h3.1 (by decide), h3.2.1 (by decide), h3.2.2 (by decide)⟩

end Kontiki
